import Mathlib

/-!
Verification of the `cosmere_epub_parser` pipeline (`src/main.rs`).

Strings are modelled as `List Char`. Rust's `char::to_ascii_lowercase`
coincides with Lean's `Char.toLower`; `str::to_lowercase` (Unicode) is
modelled by its ASCII behaviour, which is exact for every string the
program compares. `str::trim` is modelled with `Char.isWhitespace`
(space, tab, CR, LF), the fragment of Unicode whitespace relevant here.
Panics and `unwrap`/`expect` are modelled as `Option`/`Except` failure.
-/

/-- Model of Rust `str::trim_start`: drop leading whitespace characters. -/
def trim_start_ws : List Char → List Char
  | [] => []
  | c :: cs => if c.isWhitespace then trim_start_ws cs else c :: cs

/-- Model of Rust `str::trim`: drop leading and trailing whitespace. -/
def trim (l : List Char) : List Char :=
  (trim_start_ws (trim_start_ws l).reverse).reverse

/-- Recursion core of `str::replace`, fuelled by the remaining length so that
the definition is structural (the fuel always suffices: each step consumes at
least one character).  Assumes a non-empty pattern (guarded by `replace_all`). -/
def replace_go (pat rep : List Char) : Nat → List Char → List Char
  | _, [] => []
  | 0, l => l
  | n + 1, c :: cs =>
    if pat.isPrefixOf (c :: cs) then
      rep ++ replace_go pat rep n (cs.drop (pat.length - 1))
    else
      c :: replace_go pat rep n cs

/-- Model of Rust `str::replace`: replace all non-overlapping occurrences of
`pat` by `rep`, scanning left to right.  (The program only ever calls it with
non-empty patterns; for an empty pattern this model is the identity.) -/
def replace_all (pat rep l : List Char) : List Char :=
  if pat.isEmpty then l else replace_go pat rep l.length l

/-- Model of Rust `str::to_ascii_lowercase` (`Char.toLower` is ASCII-only). -/
def to_ascii_lowercase (l : List Char) : List Char :=
  l.map Char.toLower

/-- Model of Rust `str::to_lowercase`, restricted to its ASCII behaviour. -/
def to_lowercase (l : List Char) : List Char :=
  l.map Char.toLower

/-- Model of Rust `str::eq_ignore_ascii_case`. -/
def eq_ignore_ascii_case (a b : List Char) : Bool :=
  to_ascii_lowercase a == to_ascii_lowercase b

/-- Model of Rust `str::contains` for a string needle: contiguous substring. -/
def contains_sub : List Char → List Char → Bool
  | [], needle => needle.isEmpty
  | c :: t, needle => needle.isPrefixOf (c :: t) || contains_sub t needle

/-- `is_ignorable_line` from `main.rs` (lines 190-198). -/
def is_ignorable_line (line : List Char) : Bool :=
  let trimmed := trim line
  trimmed.isEmpty
    || (['#']).isPrefixOf trimmed
    || (['│']).isPrefixOf trimmed
    || ("─┴".data).isPrefixOf trimmed
    || ("─┬".data).isPrefixOf trimmed

/-- The sentinel list `borders` from `is_scene_border` in `main.rs`. -/
def borders : List (List Char) :=
  ["* * *".data, "~".data, "795f88d2-e400-42f0-bb88-d84cf308de1b".data]

/-- `is_scene_border` from `main.rs` (lines 200-203): exact membership of the
line in the sentinel list, with no trimming or normalization of its own. -/
def is_scene_border (line : List Char) : Bool :=
  borders.contains line

/-- Model of `num.trim_start_matches(ZERO)` in `pretty_chapter`. -/
def trim_start_zeros : List Char → List Char
  | [] => []
  | c :: cs => if c = '0' then trim_start_zeros cs else c :: cs

/-- `handle_secret_history_chapter` from `main.rs` (lines 227-231).  The two
`unwrap`s on `chars().nth(1)` / `chars().nth(3)` are modelled by `Option`:
`none` is the panic. -/
def handle_secret_history_chapter (raw_chapter : List Char) : Option (List Char) :=
  match raw_chapter[1]?, raw_chapter[3]? with
  | some p, some c => some ("Part ".data ++ [p] ++ ", Chapter ".data ++ [c])
  | _, _ => none

/-- `map_by_hand` from `main.rs` (lines 233-253). -/
def map_by_hand (raw_chapter : List Char) : List Char :=
  if raw_chapter = "Prologue.html".data then "Prologue".data
  else if raw_chapter = "Day_02.html".data then "Day Two".data
  else if raw_chapter = "Day_03.html".data then "Day Three".data
  else if raw_chapter = "Day_05.html".data then "Day Five".data
  else if raw_chapter = "Day_12.html".data then "Day Twelve".data
  else if raw_chapter = "Day_17.html".data then "Day Seventeen".data
  else if raw_chapter = "Day_30.html".data then "Day Thirty".data
  else if raw_chapter = "Day_42.html".data then "Day Forty-Two".data
  else if raw_chapter = "Day_58.html".data then "Day Fifty-Eight".data
  else if raw_chapter = "Day_59.html".data then "Day Fifty-Nine".data
  else if raw_chapter = "Day_70.html".data then "Day Seventy".data
  else if raw_chapter = "Day_76.html".data then "Day Seventy-Six".data
  else if raw_chapter = "Day_85.html".data then "Day Eighty-Five".data
  else if raw_chapter = "Day_97.html".data then "Day Ninety-Seven".data
  else if raw_chapter = "Day_98.html".data then "Day Ninety-Eight".data
  else if raw_chapter = "Epilogue.html".data then "Epilogue: Day One Hundred and One".data
  else raw_chapter

/-- `pretty_chapter` from `main.rs` (lines 206-225).  The secret-history
branch may panic, hence the `Option` result; every other branch is total. -/
def pretty_chapter (book_title raw_chapter : List Char) : Option (List Char) :=
  if eq_ignore_ascii_case book_title "The Hope of Elantris".data then some []
  else if to_ascii_lowercase raw_chapter = "prologue".data then some "Prologue".data
  else if to_ascii_lowercase raw_chapter = "epilogue".data then some "Epilogue".data
  else if ("chapter".data).isPrefixOf (to_ascii_lowercase raw_chapter) then
    some ("Chapter ".data ++ trim_start_zeros (raw_chapter.filter Char.isDigit))
  else if (['x']).isPrefixOf raw_chapter && (".html".data).isSuffixOf raw_chapter then
    handle_secret_history_chapter raw_chapter
  else some (map_by_hand raw_chapter)

/-- `is_in_arcanum_unbounded` from `main.rs` (lines 255-266). -/
def is_in_arcanum_unbounded (title : List Char) : Bool :=
  title == "The Hope of Elantris".data
    || title == "The Eleventh Metal".data
    || title == "Allomancer Jak and the Pits of Eltania".data
    || title == "White Sand".data
    || title == "Shadows for Silence in the Forests of Hell".data
    || title == "Sixth of the Dusk".data
    || title == "Edgedancer".data

/-- `IndexableBook` from `main.rs` (lines 12-18). -/
structure IndexableBook where
  title : List Char
  first_chapter_index : Nat
  last_chapter_index : Nat
  skippable_chapters : List Nat
deriving DecidableEq

/-- The static catalog `all_books` from `main` (lines 29-72).  The apostrophe
in one title is spelled with `Char.ofNat 39`. -/
def all_books : List IndexableBook :=
  [⟨"The Alloy of Law".data, 7, 32, [10, 16, 22, 26]⟩,
   ⟨"Shadows of Self".data, 7, 37, [8, 13, 31]⟩,
   ⟨"The Bands of Mourning".data, 7, 42, [8, 13, 26]⟩,
   ⟨"Secret History".data, 5, 35, [7, 12, 16, 21, 25]⟩,
   ⟨"Warbreaker".data, 5, 65, []⟩,
   ⟨"The Emperor".data ++ [Char.ofNat 39] ++ "s Soul".data, 3, 18, []⟩,
   ⟨"The Hope of Elantris".data, 28, 28, []⟩]

/-- The per-descriptor match rule used by the `find` in `main` (lines 98-104):
case-insensitive title containment, or the Arcanum Unbounded special case. -/
def book_matches (epub_title : List Char) (it : IndexableBook) : Bool :=
  contains_sub (to_lowercase epub_title) (to_lowercase it.title)
    || (contains_sub epub_title ("Arcanum Unbounded".data)
          && is_in_arcanum_unbounded it.title)

/-- The catalog matcher: `all_books.iter().find(...)` from `main`. -/
def find_book (books : List IndexableBook) (epub_title : List Char) : Option IndexableBook :=
  books.find? (book_matches epub_title)

/-- The filtering stage of `lines_i_care_about` (lines 139-142): drop
ignorable lines, then drop any line that the raw chapter identifier (the
spine entry `chapter_title`) ends with. -/
def kept_lines (chapter_title : List Char) (rendered : List (List Char)) : List (List Char) :=
  (rendered.filter (fun l => !is_ignorable_line l)).filter
    (fun l => !(l.isSuffixOf chapter_title))

/-- The normalization maps of `lines_i_care_about` (lines 143-145), in source
order: strip `**`, collapse dotted ellipses, remove the space before `…`. -/
def normalize_line (l : List Char) : List Char :=
  replace_all " …".data "…".data
    (replace_all ". . .".data "…".data (replace_all "**".data [] l))

/-- `lines_i_care_about` from `parse_and_write_book` (lines 139-146). -/
def lines_i_care_about (chapter_title : List Char) (rendered : List (List Char)) : List (List Char) :=
  (kept_lines chapter_title rendered).map normalize_line

/-- `.windows(3)` over a list: every run of three consecutive elements. -/
def windows3 : List α → List (α × α × α)
  | a :: b :: c :: r => (a, b, c) :: windows3 (b :: c :: r)
  | _ => []

/-- `prev_line` from the window loop (lines 163-167). -/
def prev_line (prev : List Char) : List Char :=
  if is_scene_border prev || is_ignorable_line prev then []
  else prev ++ "</p><p>".data

/-- `next_line` from the window loop (lines 169-173). -/
def next_line (next : List Char) : List Char :=
  if is_scene_border next || is_ignorable_line next then []
  else "</p><p>".data ++ next

/-- `paragraph_with_context` (line 175): `prev_line ++ curr ++ next_line`. -/
def display_text (prev curr next : List Char) : List Char :=
  prev_line prev ++ curr ++ next_line next

/-- The `searchable_text` field (line 180): `curr` with the emphasis marker
pair removed, `<em>` first and `</em>` second as in the source. -/
def searchable_text (curr : List Char) : List Char :=
  replace_all "</em>".data [] (replace_all "<em>".data [] curr)

/-- One iteration of the window loop (lines 147-186), restricted to the two
text fields of `OutputSchema`; `book_title` and `chapter_title` are constant
across the page and carry no windowing logic.  `none` models the `continue`
on a scene-border centre. -/
def emit_window (prev curr next : List Char) : Option (List Char × List Char) :=
  if is_scene_border curr then none
  else some (searchable_text curr, display_text prev curr next)

/-- The whole window loop over a cleaned line sequence: the emitted
(searchable_text, display_text) pairs in order. -/
def process_windows (lines : List (List Char)) : List (List Char × List Char) :=
  (windows3 lines).filterMap (fun w => emit_window w.1 w.2.1 w.2.2)

/-- Reasons the pipeline can abort: every `panic`/`unwrap`/`expect`/`?` site
of `main.rs` that the environment can trigger.  `chapter_label_failed` stands
for the `unwrap`s inside `handle_secret_history_chapter` reached through
`pretty_chapter` while building a record (proved unreachable below). -/
inductive AbortReason where
  | create_failed
  | read_dir_failed
  | file_type_failed
  | name_not_utf8
  | canonicalize_failed
  | open_failed
  | missing_title
  | invalid_index
  | get_page_failed
  | invalid_utf8
  | chapter_label_failed
  | write_failed
deriving DecidableEq

/-- Model of one spine position of an opened archive: the spine identifier
`doc.spine[i]`, whether `get_current()` returns the page (line 125), whether
its bytes are valid UTF-8 for `String::from_utf8` (line 126), and the lines
the renderer produces for it.  The renderer itself
(`from_read_with_decorator`, including the literal pre-render substitutions
of lines 127-132) returns a `String` and cannot fail, so `rendered` is the
total rendering result. -/
structure PageModel where
  spine_id : List Char
  get_ok : Bool
  utf8_ok : Bool
  rendered : List (List Char)
deriving DecidableEq

/-- Model of one discovered `.epub` file: whether `EpubDoc::new` succeeds
(line 91), the `mdata("title")` result (line 95), and its pages by spine
index.  `set_current_page i` (line 122) succeeds exactly when `pages[i]?` is
`some`, which also bounds the `doc.spine[i]` access on line 124. -/
structure EpubFileModel where
  open_ok : Bool
  title : Option (List Char)
  pages : List PageModel
deriving DecidableEq

/-- Model of one directory entry reaching the discovery chain of
`main` (lines 83-88).  `fs::read_dir` items that are `Err` are silently
dropped by `.flatten()` (not an abort), so `entries` below models the `Ok`
items only; the per-entry `unwrap`s on `file_type()`, `file_name().to_str()`
and `canonicalize()` are each modelled by a flag. -/
structure DirEntryModel where
  file_type_ok : Bool
  is_file : Bool
  name_utf8_ok : Bool
  name_ends_epub : Bool
  canonicalize_ok : Bool
  file : EpubFileModel
deriving DecidableEq

/-- Model of the process environment of `main`: whether `File::create`
succeeds (line 78), whether `fs::read_dir` succeeds (line 83), whether
writes to the opened output stream succeed (`write_all`, line 185 — the
stream either accepts writes or fails at the first attempt), and the
directory entries in scan order.  `serde_json::to_string` on a struct of
four strings cannot fail, and `println!` diagnostics are modelled as total. -/
structure EnvModel where
  create_ok : Bool
  read_dir_ok : Bool
  write_ok : Bool
  entries : List DirEntryModel
deriving DecidableEq

/-- The discovery chain of `main` (lines 83-88): each entry is pulled
through the `filter`/`filter`/`map` chain in order; a failing
`file_type()`, a non-UTF-8 name of a regular file, or a failing
`canonicalize()` of a selected path aborts, while non-files and non-epub
names are merely dropped. -/
def discover : List DirEntryModel → Except AbortReason (List EpubFileModel)
  | [] => Except.ok []
  | e :: rest =>
    if e.file_type_ok then
      if e.is_file then
        if e.name_utf8_ok then
          if e.name_ends_epub then
            if e.canonicalize_ok then
              match discover rest with
              | Except.ok fs => Except.ok (e.file :: fs)
              | Except.error err => Except.error err
            else Except.error AbortReason.canonicalize_failed
          else discover rest
        else Except.error AbortReason.name_not_utf8
      else discover rest
    else Except.error AbortReason.file_type_failed

/-- The files the discovery chain selects when it does not abort: the
regular files whose name ends in `epub`. -/
def discovered : List DirEntryModel → List EpubFileModel
  | [] => []
  | e :: rest =>
    if e.file_type_ok && e.is_file && e.name_utf8_ok && e.name_ends_epub
        && e.canonicalize_ok then
      e.file :: discovered rest
    else discovered rest

/-- A directory entry triggers none of the discovery `unwrap`s: its file
type is readable, and if it is a regular file its name is UTF-8, and if
that name ends in `epub` its path canonicalizes. -/
def entry_ok (e : DirEntryModel) : Bool :=
  e.file_type_ok
    && (!e.is_file
      || (e.name_utf8_ok && (!e.name_ends_epub || e.canonicalize_ok)))

/-- The inclusive page range `first_chapter_index..=last_chapter_index`. -/
def chapter_range (b : IndexableBook) : List Nat :=
  List.range' b.first_chapter_index (b.last_chapter_index + 1 - b.first_chapter_index)

/-- The body of the page loop of `parse_and_write_book` after a successful
`set_current_page` (lines 124-186): `get_current().unwrap()`, then
`String::from_utf8(..).unwrap()`, then rendering and cleaning; if the window
loop emits at least one record, each record evaluates
`pretty_chapter` (line 179, `none` would panic inside
`handle_secret_history_chapter`) and is written with
`write_all(..).unwrap()` (line 185). -/
def process_page (write_ok : Bool) (book : IndexableBook) (p : PageModel) : Except AbortReason Unit :=
  if p.get_ok then
    if p.utf8_ok then
      if (process_windows (lines_i_care_about p.spine_id p.rendered)).isEmpty then
        Except.ok ()
      else
        match pretty_chapter book.title p.spine_id with
        | none => Except.error AbortReason.chapter_label_failed
        | some _ =>
          if write_ok then Except.ok () else Except.error AbortReason.write_failed
    else Except.error AbortReason.invalid_utf8
  else Except.error AbortReason.get_page_failed

/-- The page loop of `parse_and_write_book` (lines 118-187): skippable pages
are skipped before validation; otherwise `set_current_page` must succeed
(`pages[i]?` is `some`) and the page body runs, stopping at the first
abort. -/
def process_pages (write_ok : Bool) (book : IndexableBook) (pages : List PageModel) : List Nat → Except AbortReason Unit
  | [] => Except.ok ()
  | i :: rest =>
    if book.skippable_chapters.contains i then process_pages write_ok book pages rest
    else
      match pages[i]? with
      | none => Except.error AbortReason.invalid_index
      | some p =>
        match process_page write_ok book p with
        | Except.ok _ => process_pages write_ok book pages rest
        | Except.error e => Except.error e

/-- The per-file body of the loop in `main` (lines 90-107): `unwrap` the
opened document, `expect` a title, then either skip (no catalog match) or
process the matched book's page range. -/
def process_file_model (write_ok : Bool) (books : List IndexableBook) (f : EpubFileModel) : Except AbortReason Unit :=
  if f.open_ok then
    match f.title with
    | none => Except.error AbortReason.missing_title
    | some t =>
      match find_book books t with
      | none => Except.ok ()
      | some book => process_pages write_ok book f.pages (chapter_range book)
  else Except.error AbortReason.open_failed

/-- The file loop of `main`: process files in order, stopping at the first
abort. -/
def run_files (write_ok : Bool) (books : List IndexableBook) : List EpubFileModel → Except AbortReason Unit
  | [] => Except.ok ()
  | f :: rest =>
    match process_file_model write_ok books f with
    | Except.ok _ => run_files write_ok books rest
    | Except.error e => Except.error e

/-- `main` (lines 74-109): create the output file, read the directory,
discover the epub files, then process each one. -/
def main_model (env : EnvModel) : Except AbortReason Unit :=
  if env.create_ok then
    if env.read_dir_ok then
      match discover env.entries with
      | Except.ok files => run_files env.write_ok all_books files
      | Except.error e => Except.error e
    else Except.error AbortReason.read_dir_failed
  else Except.error AbortReason.create_failed

/-- Whether a file exhibits the invalid-page-index fault named by the claim:
it opened with a title, matched a catalog entry, and some non-skippable
page index in the entry's range is outside the archive's spine. -/
def index_fault (f : EpubFileModel) : Bool :=
  match f.title with
  | none => false
  | some t =>
    match find_book all_books t with
    | none => false
    | some b =>
      (chapter_range b).any
        (fun i => !b.skippable_chapters.contains i && (f.pages[i]?).isNone)

/-- The abort condition exactly as the claim states it: output-file creation
fails, the directory cannot be read, an opened archive lacks a title, or a
catalog page index is invalid for its (opened) archive. -/
def claimed_abort_cond (env : EnvModel) : Bool :=
  !env.create_ok || !env.read_dir_ok
    || (discovered env.entries).any (fun f => f.open_ok && f.title.isNone)
    || (discovered env.entries).any (fun f => f.open_ok && index_fault f)

/-- Success condition for one page, following the amended claim: the page is
extracted, its bytes are UTF-8, and if it emits any record the output
stream accepts writes (the record's chapter label never panics, proved
below). -/
def page_ok (write_ok : Bool) (p : PageModel) : Bool :=
  p.get_ok && p.utf8_ok
    && ((process_windows (lines_i_care_about p.spine_id p.rendered)).isEmpty || write_ok)

/-- Success condition for one discovered file, following the amended claim:
the archive opens, has a title, and — when it matches a catalog entry —
every non-skippable page index of the entry's range names a page inside the
spine that itself processes cleanly (a file matching no entry is simply
skipped). -/
def file_ok (write_ok : Bool) (books : List IndexableBook) (f : EpubFileModel) : Bool :=
  f.open_ok &&
    match f.title with
    | none => false
    | some t =>
      match find_book books t with
      | none => true
      | some book =>
        (chapter_range book).all
          (fun i =>
            book.skippable_chapters.contains i ||
              match f.pages[i]? with
              | none => false
              | some p => page_ok write_ok p)

/-- Claim C2 (counterexample): the claim asserts the detector accepts any
string that trims to a sentinel, but `is_scene_border` does not trim: the
line consisting of a space and a tilde trims to the sentinel `~`, yet the
detector rejects it. -/
theorem c2_scene_border_cex :
    is_scene_border " ~".data = false ∧ trim " ~".data = "~".data := by
  decide

/-- Claim C2 (amended): `is_scene_border` returns true exactly for the
strings literally equal to one of the three sentinels; no trimming is
applied, so any other string, even one that trims to a sentinel, yields
false. -/
theorem c2_scene_border_exact (l : List Char) :
    is_scene_border l = true ↔
      (l = "* * *".data ∨ l = "~".data
        ∨ l = "795f88d2-e400-42f0-bb88-d84cf308de1b".data) := by
  simp [is_scene_border, borders, List.contains, List.elem_iff]

/-- Claim C2 witness: the detector accepts the literal sentinel `~`. -/
theorem c2_scene_border_witness : is_scene_border "~".data = true :=
  (c2_scene_border_exact "~".data).mpr (Or.inr (Or.inl rfl))

/-- Claim C7: a rendered line is classified ignorable if and only if, after
trimming whitespace, it is empty, or starts with `#`, `│`, `─┴`, or `─┬`. -/
theorem c7_ignorable_iff (l : List Char) :
    is_ignorable_line l = true ↔
      (trim l = [] ∨ ['#'] <+: trim l ∨ ['│'] <+: trim l
        ∨ "─┴".data <+: trim l ∨ "─┬".data <+: trim l) := by
  simp [is_ignorable_line, List.isEmpty_iff, Bool.or_eq_true, or_assoc]

/-- Claim C7 witness: a markdown-header leak is ignorable. -/
theorem c7_ignorable_witness : is_ignorable_line "  # Chap".data = true :=
  (c7_ignorable_iff "  # Chap".data).mpr (Or.inr (Or.inl ⟨" Chap".data, rfl⟩))

/-- Claim C1: on the cleaned sequence `["A", "* * *", "B", "C", "D"]` the
assembler slides the three windows (0,1,2), (1,2,3), (2,3,4); the window
centred on the border emits nothing; the window centred on `B` has an empty
prev fragment and next fragment `</p><p>C`; the window centred on `C` has
display text `B</p><p>C</p><p>D`. -/
theorem c1_window_example :
    windows3 ["A".data, "* * *".data, "B".data, "C".data, "D".data]
        = [("A".data, "* * *".data, "B".data),
           ("* * *".data, "B".data, "C".data),
           ("B".data, "C".data, "D".data)] ∧
      emit_window "A".data "* * *".data "B".data = none ∧
      prev_line "* * *".data = [] ∧
      next_line "C".data = "</p><p>C".data ∧
      display_text "* * *".data "B".data "C".data = "B</p><p>C".data ∧
      display_text "B".data "C".data "D".data = "B</p><p>C</p><p>D".data ∧
      process_windows ["A".data, "* * *".data, "B".data, "C".data, "D".data]
        = [("B".data, "B</p><p>C".data), ("C".data, "B</p><p>C</p><p>D".data)] := by
  decide

/-- Claim C8 (counterexample): the drop filter compares lines against the raw
spine identifier, not the normalized display name.  For spine entry
`Chapter07.html` the display name is `Chapter 7`; a rendered line equal to
`Chapter 7` is the display name's own suffix, yet it survives the filter. -/
theorem c8_title_filter_cex :
    pretty_chapter "Warbreaker".data "Chapter07.html".data = some "Chapter 7".data ∧
      ("Chapter 7".data).isSuffixOf "Chapter 7".data = true ∧
      lines_i_care_about "Chapter07.html".data ["Chapter 7".data]
        = ["Chapter 7".data] := by
  decide

/-- Claim C8 (amended): a rendered line is dropped before windowing whenever
the raw chapter identifier (the spine entry) ends with that exact line. -/
theorem c8_raw_title_filter (chapter_title : List Char)
    (rendered : List (List Char)) (l : List Char)
    (h : l.isSuffixOf chapter_title = true) :
    l ∉ kept_lines chapter_title rendered := by
  intro hmem
  have h2 := (List.mem_filter.mp hmem).2
  rw [h] at h2
  simp at h2

/-- Claim C8 witness: the line `.html` is a suffix of the spine entry
`Chapter07.html` and is indeed dropped. -/
theorem c8_raw_title_filter_witness :
    ".html".data ∉ kept_lines "Chapter07.html".data [".html".data] :=
  c8_raw_title_filter "Chapter07.html".data [".html".data] ".html".data (by decide)

/-- Claim C3: for a book that is not title-suppressed and an identifier whose
ASCII lowercase form starts with `chapter` and contains a digit, the
normalizer returns `Chapter ` followed by the identifier's ASCII digits with
leading zeros removed. -/
theorem c3_chapter_digits (book_title raw : List Char)
    (h : eq_ignore_ascii_case book_title "The Hope of Elantris".data = false)
    (hc : ("chapter".data).isPrefixOf (to_ascii_lowercase raw) = true)
    (_hd : raw.filter Char.isDigit ≠ []) :
    pretty_chapter book_title raw
      = some ("Chapter ".data ++ trim_start_zeros (raw.filter Char.isDigit)) := by
  have hp : ¬ (to_ascii_lowercase raw = "prologue".data) := by
    intro he; rw [he] at hc; exact absurd hc (by decide)
  have he2 : ¬ (to_ascii_lowercase raw = "epilogue".data) := by
    intro he; rw [he] at hc; exact absurd hc (by decide)
  unfold pretty_chapter
  rw [if_neg (by simp [h]), if_neg hp, if_neg he2, if_pos hc]

/-- Claim C3 witness: `Chapter07.html` yields `Chapter 7`. -/
theorem c3_chapter_digits_witness :
    pretty_chapter "Warbreaker".data "Chapter07.html".data = some "Chapter 7".data :=
  Eq.trans
    (c3_chapter_digits "Warbreaker".data "Chapter07.html".data (by decide) (by decide)
      (by decide))
    (by decide)

/-- Claim C4 (counterexample): the filename form `Epilogue.html` does not
normalize to `Epilogue`; the hand-written table maps it to
`Epilogue: Day One Hundred and One`. -/
theorem c4_epilogue_cex :
    pretty_chapter "Warbreaker".data "Epilogue.html".data ≠ some "Epilogue".data ∧
      pretty_chapter "Warbreaker".data "Epilogue.html".data
        = some "Epilogue: Day One Hundred and One".data := by
  decide

/-- Claim C4 (amended): for a book that is not title-suppressed, identifiers
case-insensitively equal to `prologue` / `epilogue` normalize to `Prologue` /
`Epilogue`; the filename form `Prologue.html` also yields `Prologue` through
the hand-written table, while `Epilogue.html` yields
`Epilogue: Day One Hundred and One`. -/
theorem c4_prologue_epilogue (book_title raw : List Char)
    (h : eq_ignore_ascii_case book_title "The Hope of Elantris".data = false) :
    (to_ascii_lowercase raw = "prologue".data →
        pretty_chapter book_title raw = some "Prologue".data) ∧
      (to_ascii_lowercase raw = "epilogue".data →
        pretty_chapter book_title raw = some "Epilogue".data) ∧
      pretty_chapter book_title "Prologue.html".data = some "Prologue".data ∧
      pretty_chapter book_title "Epilogue.html".data
        = some "Epilogue: Day One Hundred and One".data := by
  refine ⟨?_, ?_, ?_, ?_⟩
  · intro hp
    unfold pretty_chapter
    rw [if_neg (by simp [h]), if_pos hp]
  · intro hp
    unfold pretty_chapter
    rw [if_neg (by simp [h]), if_neg (by rw [hp]; decide), if_pos hp]
  · unfold pretty_chapter
    rw [if_neg (by simp [h])]
    decide
  · unfold pretty_chapter
    rw [if_neg (by simp [h])]
    decide

/-- Claim C4 witness: with the non-suppressed book `Warbreaker` and the
identifier `PROLOGUE`, the first part of the amended claim applies. -/
theorem c4_prologue_epilogue_witness :
    pretty_chapter "Warbreaker".data "PROLOGUE".data = some "Prologue".data :=
  (c4_prologue_epilogue "Warbreaker".data "PROLOGUE".data (by decide)).1 (by decide)

/-- Helper: an identifier that starts with `x` and ends with `.html` has
length at least 6, so the positional accesses at indices 1 and 3 succeed and
`handle_secret_history_chapter` returns a part/chapter label. -/
theorem secret_history_total (raw : List Char)
    (h1 : (['x']).isPrefixOf raw = true)
    (h2 : (".html".data).isSuffixOf raw = true) :
    6 ≤ raw.length ∧
      ∃ p q, raw[1]? = some p ∧ raw[3]? = some q ∧
        handle_secret_history_chapter raw
          = some ("Part ".data ++ [p] ++ ", Chapter ".data ++ [q]) := by
  have hsuf : ".html".data <:+ raw := List.isSuffixOf_iff_suffix.mp h2
  have hlen5 : 5 ≤ raw.length := by
    have hle := hsuf.length_le
    simpa using hle
  have hlen : 6 ≤ raw.length := by
    rcases Nat.lt_or_ge raw.length 6 with hl | hl
    · have h5 : raw.length = 5 := Nat.le_antisymm (Nat.lt_succ_iff.mp hl) hlen5
      have heq : ".html".data = raw := hsuf.eq_of_length (by rw [h5]; decide)
      rw [← heq] at h1
      exact absurd h1 (by decide)
    · exact hl
  have h1lt : 1 < raw.length := by omega
  have h3lt : 3 < raw.length := by omega
  refine ⟨hlen, raw[1], raw[3],
    List.getElem?_eq_getElem h1lt, List.getElem?_eq_getElem h3lt, ?_⟩
  unfold handle_secret_history_chapter
  rw [List.getElem?_eq_getElem h1lt, List.getElem?_eq_getElem h3lt]

/-- Claim C10: any identifier that starts with `x` and ends with `.html` has
length at least 6, so the positional accesses at indices 1 and 3 succeed and
`handle_secret_history_chapter` totally returns a part/chapter label. -/
theorem c10_secret_history_safe (raw : List Char)
    (h1 : (['x']).isPrefixOf raw = true)
    (h2 : (".html".data).isSuffixOf raw = true) :
    6 ≤ raw.length ∧
      ∃ p q, raw[1]? = some p ∧ raw[3]? = some q ∧
        handle_secret_history_chapter raw
          = some ("Part ".data ++ [p] ++ ", Chapter ".data ++ [q]) :=
  secret_history_total raw h1 h2

/-- Claim C10 witness: the identifier `x1a3.html` parses to part 1,
chapter 3. -/
theorem c10_secret_history_witness :
    6 ≤ ("x1a3.html".data).length ∧
      ∃ p q, ("x1a3.html".data)[1]? = some p ∧ ("x1a3.html".data)[3]? = some q ∧
        handle_secret_history_chapter "x1a3.html".data
          = some ("Part ".data ++ [p] ++ ", Chapter ".data ++ [q]) :=
  c10_secret_history_safe "x1a3.html".data (by decide) (by decide)

/-- Claim C5: the catalog matcher returns the first descriptor, in catalog
order, satisfying the match rule (case-insensitive title containment, or the
Arcanum Unbounded special case), and returns none exactly when no descriptor
satisfies it, in which case the file is skipped. -/
theorem c5_catalog_first_match (books : List IndexableBook) (epub_title : List Char) :
    (∀ b, find_book books epub_title = some b →
        book_matches epub_title b = true ∧
          ∃ pre post, books = pre ++ b :: post ∧
            ∀ x ∈ pre, book_matches epub_title x = false) ∧
      (find_book books epub_title = none ↔
        ∀ b ∈ books, book_matches epub_title b = false) := by
  constructor
  · intro b hb
    induction books with
    | nil => simp [find_book] at hb
    | cons a t ih =>
      by_cases ha : book_matches epub_title a = true
      · rw [find_book, List.find?_cons_of_pos _ ha] at hb
        cases hb
        exact ⟨ha, [], t, rfl, by simp⟩
      · rw [find_book, List.find?_cons_of_neg _ ha] at hb
        obtain ⟨hm, pre, post, hsplit, hpre⟩ := ih hb
        refine ⟨hm, a :: pre, post, by rw [hsplit]; rfl, ?_⟩
        intro x hx
        rcases List.mem_cons.mp hx with hxa | hxp
        · subst hxa
          exact Bool.eq_false_iff.mpr ha
        · exact hpre x hxp
  · rw [find_book, List.find?_eq_none]
    constructor
    · intro h b hb
      exact Bool.eq_false_iff.mpr (h b hb)
    · intro h b hb hb2
      rw [h b hb] at hb2
      cases hb2

/-- Claim C5 witness: the declared title `Arcanum Unbounded` matches no
descriptor by containment but triggers the anthology rule; the first
descriptor in the anthology set is `The Hope of Elantris`, preceded by six
non-matching descriptors. -/
theorem c5_catalog_witness :
    book_matches ("Arcanum Unbounded".data)
        (⟨"The Hope of Elantris".data, 28, 28, []⟩ : IndexableBook) = true ∧
      ∃ pre post,
        all_books = pre ++ (⟨"The Hope of Elantris".data, 28, 28, []⟩ : IndexableBook) :: post ∧
          ∀ x ∈ pre, book_matches ("Arcanum Unbounded".data) x = false :=
  (c5_catalog_first_match all_books "Arcanum Unbounded".data).1
    ⟨"The Hope of Elantris".data, 28, 28, []⟩ (by decide)

/-- Claim C6 (counterexample): for the cleaned sequence
`["A", "<em>B</em>", "C"]` (no line ignorable, none a border) the emitted
searchable texts are exactly `["B"]`: the boundary lines `A` and `C` are
lost to windowing, and the emitted value `B` is not itself a member of the
cleaned sequence because the emphasis markers are stripped, so the two sets
differ in both directions. -/
theorem c6_roundtrip_cex :
    (process_windows ["A".data, "<em>B</em>".data, "C".data]).map Prod.fst
        = ["B".data] ∧
      (["A".data, "<em>B</em>".data, "C".data].filter
          (fun l => !is_scene_border l))
        = ["A".data, "<em>B</em>".data, "C".data] ∧
      (["A".data, "<em>B</em>".data, "C".data].filter
          (fun l => !is_ignorable_line l))
        = ["A".data, "<em>B</em>".data, "C".data] ∧
      "A".data ∉ (process_windows ["A".data, "<em>B</em>".data, "C".data]).map Prod.fst ∧
      "B".data ∉ ["A".data, "<em>B</em>".data, "C".data] := by
  decide

/-- Claim C6 (amended): the emitted searchable texts of a cleaned line
sequence are exactly its interior lines (the first and last cleaned lines
never become a window's centre) that are not scene borders, each with the
emphasis marker pair removed, in order and without loss or duplication. -/
theorem c6_searchable_roundtrip (cl : List (List Char)) :
    (process_windows cl).map Prod.fst
      = (((cl.drop 1).dropLast).filter (fun l => !is_scene_border l)).map
          searchable_text := by
  induction cl with
  | nil => rfl
  | cons a t ih =>
    cases t with
    | nil => rfl
    | cons b t2 =>
      cases t2 with
      | nil => rfl
      | cons c r =>
        by_cases hb : is_scene_border b = true
        · simpa [process_windows, windows3, emit_window, hb] using ih
        · simpa [process_windows, windows3, emit_window, hb] using ih


/-- Helper: `pretty_chapter` never panics: every branch is `some`; in the
secret-history branch the guard implies the positional accesses succeed. -/
theorem pretty_chapter_isSome (book_title raw : List Char) :
    (pretty_chapter book_title raw).isSome = true := by
  unfold pretty_chapter
  split
  · rfl
  · split
    · rfl
    · split
      · rfl
      · split
        · rfl
        · split
          · next hx =>
            rw [Bool.and_eq_true] at hx
            obtain ⟨h1, h2⟩ := hx
            obtain ⟨_, p, q, _, _, hh⟩ := secret_history_total raw h1 h2
            rw [hh]
            rfl
          · rfl

/-- Helper: the page body succeeds exactly under `page_ok`: the page is
extracted, decodes as UTF-8, and any emitted record can be written (the
chapter label is always available by `pretty_chapter_isSome`). -/
theorem process_page_ok_iff (w : Bool) (book : IndexableBook) (p : PageModel) :
    process_page w book p = Except.ok () ↔ page_ok w p = true := by
  obtain ⟨v, hv⟩ := Option.isSome_iff_exists.mp (pretty_chapter_isSome book.title p.spine_id)
  cases hg : p.get_ok with
  | false => simp [process_page, page_ok, hg]
  | true =>
    cases hu : p.utf8_ok with
    | false => simp [process_page, page_ok, hg, hu]
    | true =>
      by_cases hr : (process_windows (lines_i_care_about p.spine_id p.rendered)).isEmpty = true
      · simp [process_page, page_ok, hg, hu, hr]
      · cases w with
        | false => simp [process_page, page_ok, hg, hu, hr, hv]
        | true => simp [process_page, page_ok, hg, hu, hr, hv]

/-- Helper: the page loop succeeds exactly when every non-skippable index in
range names a page of the spine that processes cleanly. -/
theorem process_pages_ok_iff (w : Bool) (book : IndexableBook)
    (pages : List PageModel) (is : List Nat) :
    process_pages w book pages is = Except.ok () ↔
      (is.all fun i =>
        book.skippable_chapters.contains i ||
          match pages[i]? with
          | none => false
          | some p => page_ok w p) = true := by
  induction is with
  | nil => simp [process_pages]
  | cons i rest ih =>
    by_cases h1 : i ∈ book.skippable_chapters
    · simp [process_pages, h1, ih]
    · cases hp : pages[i]? with
      | none => simp [process_pages, h1, hp]
      | some p =>
        cases hq : process_page w book p with
        | ok u =>
          cases u
          have hpo := (process_page_ok_iff w book p).mp hq
          simp [process_pages, h1, hp, hq, hpo, ih]
        | error e =>
          have hnp : page_ok w p = false := by
            rcases hb : page_ok w p with _ | _
            · rfl
            · rw [(process_page_ok_iff w book p).mpr hb] at hq
              simp at hq
          simp [process_pages, h1, hp, hq, hnp]

/-- Helper: one file processes cleanly exactly under `file_ok`. -/
theorem process_file_ok_iff (w : Bool) (books : List IndexableBook) (f : EpubFileModel) :
    process_file_model w books f = Except.ok () ↔ file_ok w books f = true := by
  cases ho : f.open_ok with
  | false => simp [process_file_model, file_ok, ho]
  | true =>
    cases ht : f.title with
    | none => simp [process_file_model, file_ok, ho, ht]
    | some t =>
      cases hf : find_book books t with
      | none => simp [process_file_model, file_ok, ho, ht, hf]
      | some book =>
        simp [process_file_model, file_ok, ho, ht, hf, process_pages_ok_iff]

/-- Helper: the file loop succeeds exactly when every file processes
cleanly. -/
theorem run_files_ok_iff (w : Bool) (books : List IndexableBook) (fs : List EpubFileModel) :
    run_files w books fs = Except.ok () ↔
      ∀ f ∈ fs, process_file_model w books f = Except.ok () := by
  induction fs with
  | nil => simp [run_files]
  | cons f rest ih =>
    cases hp : process_file_model w books f with
    | ok u =>
      cases u
      simp [run_files, hp, ih]
    | error e => simp [run_files, hp]

/-- Helper: when no directory entry faults, discovery returns exactly the
selected files. -/
theorem discover_ok_of (entries : List DirEntryModel)
    (h : ∀ e ∈ entries, entry_ok e = true) :
    discover entries = Except.ok (discovered entries) := by
  induction entries with
  | nil => rfl
  | cons e rest ih =>
    have he : entry_ok e = true := h e (List.mem_cons_self e rest)
    have hrest : ∀ x ∈ rest, entry_ok x = true :=
      fun x hx => h x (List.mem_cons_of_mem e hx)
    have ihr := ih hrest
    cases h1 : e.file_type_ok with
    | false => rw [entry_ok, h1] at he; simp at he
    | true =>
      cases h2 : e.is_file with
      | false => simp [discover, discovered, h1, h2, ihr]
      | true =>
        cases h3 : e.name_utf8_ok with
        | false => rw [entry_ok, h1, h2, h3] at he; simp at he
        | true =>
          cases h4 : e.name_ends_epub with
          | false => simp [discover, discovered, h1, h2, h3, h4, ihr]
          | true =>
            cases h5 : e.canonicalize_ok with
            | false => rw [entry_ok, h1, h2, h3, h4, h5] at he; simp at he
            | true => simp [discover, discovered, h1, h2, h3, h4, h5, ihr]

/-- Helper: when some directory entry faults, discovery aborts. -/
theorem discover_err_of (entries : List DirEntryModel)
    (h : ¬ ∀ e ∈ entries, entry_ok e = true) :
    ∃ r, discover entries = Except.error r := by
  induction entries with
  | nil => exact absurd (by simp) h
  | cons e rest ih =>
    cases h1 : e.file_type_ok with
    | false => exact ⟨AbortReason.file_type_failed, by simp [discover, h1]⟩
    | true =>
      cases h2 : e.is_file with
      | false =>
        have he : entry_ok e = true := by rw [entry_ok, h1, h2]; rfl
        have hrest : ¬ ∀ x ∈ rest, entry_ok x = true := by
          intro hall
          exact h (List.forall_mem_cons.mpr ⟨he, hall⟩)
        obtain ⟨r, hr⟩ := ih hrest
        exact ⟨r, by simp [discover, h1, h2, hr]⟩
      | true =>
        cases h3 : e.name_utf8_ok with
        | false => exact ⟨AbortReason.name_not_utf8, by simp [discover, h1, h2, h3]⟩
        | true =>
          cases h4 : e.name_ends_epub with
          | false =>
            have he : entry_ok e = true := by rw [entry_ok, h1, h2, h3, h4]; rfl
            have hrest : ¬ ∀ x ∈ rest, entry_ok x = true := by
              intro hall
              exact h (List.forall_mem_cons.mpr ⟨he, hall⟩)
            obtain ⟨r, hr⟩ := ih hrest
            exact ⟨r, by simp [discover, h1, h2, h3, h4, hr]⟩
          | true =>
            cases h5 : e.canonicalize_ok with
            | false =>
              exact ⟨AbortReason.canonicalize_failed, by simp [discover, h1, h2, h3, h4, h5]⟩
            | true =>
              have he : entry_ok e = true := by rw [entry_ok, h1, h2, h3, h4, h5]; rfl
              have hrest : ¬ ∀ x ∈ rest, entry_ok x = true := by
                intro hall
                exact h (List.forall_mem_cons.mpr ⟨he, hall⟩)
              obtain ⟨r, hr⟩ := ih hrest
              exact ⟨r, by simp [discover, h1, h2, h3, h4, h5, hr]⟩

/-- Claim C9 (counterexample): a discovered file whose archive fails to open
aborts the run via the `unwrap` on `EpubDoc::new`, although none of the four
abort conditions stated by the claim holds. -/
theorem c9_abort_cex :
    main_model ⟨true, true, true,
        [⟨true, true, true, true, true, ⟨false, some "T".data, []⟩⟩]⟩
        = Except.error AbortReason.open_failed ∧
      claimed_abort_cond ⟨true, true, true,
        [⟨true, true, true, true, true, ⟨false, some "T".data, []⟩⟩]⟩ = false :=
  ⟨rfl, rfl⟩

/-- Claim C9 (amended): the run succeeds exactly when the output file is
created, the directory is read, no discovery step faults (readable file
type, UTF-8 name of every regular file, canonicalizable path of every
selected epub), and every discovered epub opens, has a title, and — when it
matches a catalog entry — every non-skippable page index of the entry's
range lies in its spine, extracts, decodes as UTF-8, and has its records
accepted by the output stream; so the pipeline aborts exactly when one of
those conditions fails, and a file matching no catalog entry is skipped
without error. -/
theorem c9_abort_characterization (env : EnvModel) :
    main_model env = Except.ok () ↔
      (env.create_ok = true ∧ env.read_dir_ok = true ∧
        (∀ e ∈ env.entries, entry_ok e = true) ∧
        ∀ f ∈ discovered env.entries, file_ok env.write_ok all_books f = true) := by
  cases hc : env.create_ok with
  | false => simp [main_model, hc]
  | true =>
    cases hr : env.read_dir_ok with
    | false => simp [main_model, hc, hr]
    | true =>
      by_cases hE : ∀ e ∈ env.entries, entry_ok e = true
      · have hd := discover_ok_of env.entries hE
        simp [main_model, hc, hr, hd, hE, run_files_ok_iff, process_file_ok_iff]
        exact fun _ => hE
      · obtain ⟨r, hrr⟩ := discover_err_of env.entries hE
        simp [main_model, hc, hr, hrr, hE]

/-- Claim C9 witness: an environment with one well-formed file matching no
catalog entry runs to success — the file is skipped, not an error. -/
theorem c9_abort_witness :
    main_model ⟨true, true, true,
        [⟨true, true, true, true, true, ⟨true, some "Unknown Book".data, []⟩⟩]⟩
      = Except.ok () :=
  (c9_abort_characterization ⟨true, true, true,
      [⟨true, true, true, true, true, ⟨true, some "Unknown Book".data, []⟩⟩]⟩).mpr
    (by decide)
